import Mathlib

/-!
Shallow embedding of src/src/mono/mono/utils/mono-dl-wasm.c, the WebAssembly
backend of the mono runtime's dynamic-library loading subsystem.

Machine `int` flag words are embedded as `Nat`: only bitwise OR and AND are
performed on them, so no overflow arises.
-/

/-- Modelled from the spec: the portable loader-flag constants
(MONO_DL_GLOBAL, MONO_DL_LOCAL, MONO_DL_LAZY, declared in mono-dl.h) and the
host loader-flag constants (RTLD_GLOBAL, RTLD_LOCAL, RTLD_LAZY, RTLD_NOW,
declared in the host dlfcn.h) are defined in headers outside this repository
fragment.  The spec only requires that such an enumeration exists, so the
embedding carries them as an arbitrary package of natural-number bit masks and
the theorems quantify over the package. -/
structure DlConsts where
  MONO_DL_GLOBAL : Nat
  MONO_DL_LOCAL : Nat
  MONO_DL_LAZY : Nat
  RTLD_GLOBAL : Nat
  RTLD_LOCAL : Nat
  RTLD_LAZY : Nat
  RTLD_NOW : Nat

/-- Embedding of mono_dl_convert_flags, full-host variant (HOST_WASI not
defined).  Mirrors the C body: start from the native baseline, add the scope
contribution (GLOBAL only when GLOBAL is requested and LOCAL is not, else
LOCAL), then add the binding contribution (LAZY when requested, else NOW). -/
def mono_dl_convert_flags (c : DlConsts) (mono_flags native_flags : Nat) : Nat :=
  let lflags := native_flags
  let lflags :=
    if mono_flags &&& c.MONO_DL_GLOBAL ≠ 0 ∧ mono_flags &&& c.MONO_DL_LOCAL = 0 then
      lflags ||| c.RTLD_GLOBAL
    else
      lflags ||| c.RTLD_LOCAL
  let lflags :=
    if mono_flags &&& c.MONO_DL_LAZY ≠ 0 then
      lflags ||| c.RTLD_LAZY
    else
      lflags ||| c.RTLD_NOW
  lflags

/-- Embedding of mono_dl_convert_flags, minimal-host variant (HOST_WASI
defined): the whole flag-translation block is compiled out and the baseline is
returned unchanged. -/
def mono_dl_convert_flags_wasi (mono_flags native_flags : Nat) : Nat :=
  native_flags

/-- Embedding of mono_dl_get_so_prefix: the empty library-name prefix. -/
def mono_dl_get_so_prefix : String :=
  ""

/-- Embedding of mono_dl_get_so_suffixes: the static suffix array
\x7b".wasm", ""\x7d, in order. -/
def mono_dl_get_so_suffixes : List String :=
  [".wasm", ""]

/-- Embedding of mono_dl_get_system_dir: returns NULL, i.e. no system
library directory. -/
def mono_dl_get_system_dir : Option String :=
  none

/-- Embedding of mono_dl_lookup_symbol: returns NULL for every module handle
(possibly itself NULL, hence `Option μ`) and every symbol name.  The result
pointer is embedded as `Option Nat`, `none` standing for NULL. -/
def mono_dl_lookup_symbol (μ : Type) (module : Option μ) (name : String) : Option Nat :=
  none

/-- Modelled from the spec: glib's g_strdup (eglib is outside this repository
fragment) returns a freshly allocated copy of its argument, owned by the
caller; it never returns NULL for a non-NULL argument.  The allocator is
embedded as a counter `heap` of the next fresh address: the call returns the
pointer (address paired with the string contents, `none` standing for NULL)
together with the advanced allocator state. -/
def g_strdup (heap : Nat) (s : String) : Option (Nat × String) × Nat :=
  (some (heap, s), heap + 1)

/-- Embedding of mono_dl_current_error_string: g_strdup of the empty string,
threaded through the allocator state. -/
def mono_dl_current_error_string (heap : Nat) : Option (Nat × String) × Nat :=
  g_strdup heap ""

/-- Embedding of mono_dl_open_file: returns NULL unconditionally and does not
touch the caller's error sink, which is threaded through unchanged (the error
sink type `ε` is opaque to this backend).  The module-handle result is
embedded as `Option Nat`, `none` standing for NULL. -/
def mono_dl_open_file (ε : Type) (file : String) (flags : Nat) (error : ε) : Option Nat × ε :=
  (none, error)

/-- Embedding of mono_dl_close_handle: empty body; the error sink is returned
unchanged and the module handle (possibly NULL) is not inspected. -/
def mono_dl_close_handle (μ ε : Type) (module : Option μ) (error : ε) : ε :=
  error

/-- Concrete constant package used by the witnesses: each RTLD mask is a
single distinct bit. -/
def testConsts : DlConsts :=
  ⟨4, 2, 1, 256, 16, 1, 2⟩

theorem land_lor_lor_absorb (a s t : Nat) : a &&& ((a ||| s) ||| t) = a := by
  apply Nat.eq_of_testBit_eq
  intro i
  rw [Nat.testBit_and, Nat.testBit_or, Nat.testBit_or]
  cases a.testBit i <;> simp

/-- C3: every bit set in the native baseline B is also set in the result of
mono_dl_convert_flags F B: the translator only ORs contributions onto the
baseline. -/
theorem mono_dl_convert_flags_preserves_baseline (c : DlConsts) (F B : Nat) :
    B &&& mono_dl_convert_flags c F B = B := by
  simp only [mono_dl_convert_flags]
  split <;> split <;> exact land_lor_lor_absorb B _ _

/-- C4: on the minimal host (HOST_WASI), the flag translator returns the
baseline unchanged for every portable flag word. -/
theorem mono_dl_convert_flags_wasi_identity (F B : Nat) :
    mono_dl_convert_flags_wasi F B = B :=
  rfl

/-- C1: on the full host, the translator adds the host GLOBAL-scope bit
exactly when the portable flags request GLOBAL and do not request LOCAL;
otherwise it adds the host LOCAL-scope bit and leaves the GLOBAL-scope bit as
it was in the baseline (LOCAL wins ties).  Stated for any constant package in
which the RTLD masks are single bits with the GLOBAL bit distinct from the
others. -/
theorem mono_dl_convert_flags_scope (c : DlConsts) (F B g l z n : Nat)
    (hg : c.RTLD_GLOBAL = 2 ^ g) (hl : c.RTLD_LOCAL = 2 ^ l)
    (hz : c.RTLD_LAZY = 2 ^ z) (hn : c.RTLD_NOW = 2 ^ n)
    (hgl : g ≠ l) (hgz : g ≠ z) (hgn : g ≠ n) :
    (F &&& c.MONO_DL_GLOBAL ≠ 0 ∧ F &&& c.MONO_DL_LOCAL = 0 →
      (mono_dl_convert_flags c F B).testBit g = true) ∧
    (¬(F &&& c.MONO_DL_GLOBAL ≠ 0 ∧ F &&& c.MONO_DL_LOCAL = 0) →
      (mono_dl_convert_flags c F B).testBit l = true ∧
      (mono_dl_convert_flags c F B).testBit g = B.testBit g) := by
  simp only [mono_dl_convert_flags]
  constructor
  · intro h
    by_cases hlz : F &&& c.MONO_DL_LAZY ≠ 0
    · rw [if_pos hlz, if_pos h, hg, hz]
      simp [Nat.testBit_or, Nat.testBit_two_pow_self]
    · rw [if_neg hlz, if_pos h, hg, hn]
      simp [Nat.testBit_or, Nat.testBit_two_pow_self]
  · intro h
    by_cases hlz : F &&& c.MONO_DL_LAZY ≠ 0
    · rw [if_pos hlz, if_neg h, hl, hz]
      constructor
      · simp [Nat.testBit_or, Nat.testBit_two_pow_self]
      · simp [Nat.testBit_or, Nat.testBit_two_pow_of_ne (Ne.symm hgl),
          Nat.testBit_two_pow_of_ne (Ne.symm hgz)]
    · rw [if_neg hlz, if_neg h, hl, hn]
      constructor
      · simp [Nat.testBit_or, Nat.testBit_two_pow_self]
      · simp [Nat.testBit_or, Nat.testBit_two_pow_of_ne (Ne.symm hgl),
          Nat.testBit_two_pow_of_ne (Ne.symm hgn)]

/-- Witness for C1 at the concrete package testConsts with F = GLOBAL|LOCAL
(= 6) and B = 0: the LOCAL-scope bit (bit 4) is set and the GLOBAL-scope bit
(bit 8) stays as in the baseline. -/
theorem mono_dl_convert_flags_scope_witness :
    (mono_dl_convert_flags testConsts 6 0).testBit 4 = true ∧
    (mono_dl_convert_flags testConsts 6 0).testBit 8 = (0 : Nat).testBit 8 :=
  (mono_dl_convert_flags_scope testConsts 6 0 8 4 0 1 rfl rfl rfl rfl
    (by decide) (by decide) (by decide)).2 (by decide)

/-- C2: on the full host, the translator adds the host LAZY-binding bit
exactly when the portable flags request LAZY, and otherwise adds the host
NOW-binding bit; in particular translating the bare portable GLOBAL request
over a zero baseline yields exactly GLOBAL-scope OR NOW-binding.  Stated for
any constant package in which the RTLD masks are single bits with the LAZY
bit distinct from the others. -/
theorem mono_dl_convert_flags_binding (c : DlConsts) (F B g l z n : Nat)
    (hg : c.RTLD_GLOBAL = 2 ^ g) (hl : c.RTLD_LOCAL = 2 ^ l)
    (hz : c.RTLD_LAZY = 2 ^ z) (hn : c.RTLD_NOW = 2 ^ n)
    (hzg : z ≠ g) (hzl : z ≠ l) (hzn : z ≠ n) :
    (F &&& c.MONO_DL_LAZY ≠ 0 → (mono_dl_convert_flags c F B).testBit z = true) ∧
    (F &&& c.MONO_DL_LAZY = 0 →
      (mono_dl_convert_flags c F B).testBit n = true ∧
      (mono_dl_convert_flags c F B).testBit z = B.testBit z) ∧
    (c.MONO_DL_GLOBAL ≠ 0 → c.MONO_DL_GLOBAL &&& c.MONO_DL_LOCAL = 0 →
      c.MONO_DL_GLOBAL &&& c.MONO_DL_LAZY = 0 →
      mono_dl_convert_flags c c.MONO_DL_GLOBAL 0 = c.RTLD_GLOBAL ||| c.RTLD_NOW) := by
  refine ⟨?_, ?_, ?_⟩
  · intro h
    simp only [mono_dl_convert_flags]
    rw [if_pos h, hz]
    split <;> simp [Nat.testBit_or, Nat.testBit_two_pow_self]
  · intro h
    simp only [mono_dl_convert_flags]
    rw [if_neg (not_not_intro h), hn]
    constructor
    · split <;> simp [Nat.testBit_or, Nat.testBit_two_pow_self]
    · split <;>
        simp [Nat.testBit_or, hg, hl, Nat.testBit_two_pow_of_ne (Ne.symm hzg),
          Nat.testBit_two_pow_of_ne (Ne.symm hzl), Nat.testBit_two_pow_of_ne (Ne.symm hzn)]
  · intro h1 h2 h3
    simp only [mono_dl_convert_flags]
    rw [Nat.and_self, if_neg (not_not_intro h3), if_pos ⟨h1, h2⟩, Nat.zero_or]

/-- Witness for C2 at testConsts: with F = LAZY (= 1) the LAZY-binding bit
(bit 0) is set; with F = 0 the NOW-binding bit (bit 1) is set; and
translating the bare GLOBAL request over a zero baseline yields
GLOBAL-scope OR NOW-binding. -/
theorem mono_dl_convert_flags_binding_witness :
    (mono_dl_convert_flags testConsts 1 0).testBit 0 = true ∧
    (mono_dl_convert_flags testConsts 0 0).testBit 1 = true ∧
    mono_dl_convert_flags testConsts testConsts.MONO_DL_GLOBAL 0 =
      testConsts.RTLD_GLOBAL ||| testConsts.RTLD_NOW :=
  ⟨(mono_dl_convert_flags_binding testConsts 1 0 8 4 0 1 rfl rfl rfl rfl
      (by decide) (by decide) (by decide)).1 (by decide),
   ((mono_dl_convert_flags_binding testConsts 0 0 8 4 0 1 rfl rfl rfl rfl
      (by decide) (by decide) (by decide)).2.1 (by decide)).1,
   (mono_dl_convert_flags_binding testConsts 1 0 8 4 0 1 rfl rfl rfl rfl
      (by decide) (by decide) (by decide)).2.2 (by decide) (by decide) (by decide)⟩

/-- C5: the platform-shape queries return exactly the empty prefix, the
ordered two-element suffix list [".wasm", ""], and no system directory. -/
theorem mono_dl_platform_shape :
    mono_dl_get_so_prefix = "" ∧
    mono_dl_get_so_suffixes = [".wasm", ""] ∧
    mono_dl_get_system_dir = none :=
  ⟨rfl, rfl, rfl⟩

/-- C6: mono_dl_open_file returns a NULL module handle for every file name,
every flag word and every error sink. -/
theorem mono_dl_open_file_returns_none (ε : Type) (file : String) (flags : Nat) (e : ε) :
    (mono_dl_open_file ε file flags e).1 = none :=
  rfl

/-- C7: mono_dl_lookup_symbol returns NULL for every module handle (NULL
included) and every symbol name. -/
theorem mono_dl_lookup_symbol_returns_none (μ : Type) (m : Option μ) (name : String) :
    mono_dl_lookup_symbol μ m name = none :=
  rfl

/-- C8: mono_dl_current_error_string returns a non-NULL pointer holding the
empty string, and a repeated call returns a distinct (independent)
allocation. -/
theorem mono_dl_current_error_string_fresh_empty (heap : Nat) :
    (mono_dl_current_error_string heap).1.isSome = true ∧
    (mono_dl_current_error_string heap).1.map Prod.snd = some "" ∧
    (mono_dl_current_error_string (mono_dl_current_error_string heap).2).1 ≠
      (mono_dl_current_error_string heap).1 := by
  refine ⟨rfl, rfl, ?_⟩
  simp [mono_dl_current_error_string, g_strdup]

/-- C9: no operation writes to the caller's error sink: open returns the sink
unchanged, and close returns the sink unchanged for every handle, a NULL one
included. -/
theorem mono_dl_no_error_sink_writes (μ ε : Type) (file : String) (flags : Nat)
    (e : ε) (m : Option μ) :
    (mono_dl_open_file ε file flags e).2 = e ∧ mono_dl_close_handle μ ε m e = e :=
  ⟨rfl, rfl⟩

/-- C10: the translator's output depends only on the GLOBAL, LOCAL and LAZY
bits of the portable flag word: two portable words agreeing under those three
masks translate identically over every baseline. -/
theorem mono_dl_convert_flags_mask_determined (c : DlConsts) (F1 F2 B : Nat)
    (hG : F1 &&& c.MONO_DL_GLOBAL = F2 &&& c.MONO_DL_GLOBAL)
    (hL : F1 &&& c.MONO_DL_LOCAL = F2 &&& c.MONO_DL_LOCAL)
    (hZ : F1 &&& c.MONO_DL_LAZY = F2 &&& c.MONO_DL_LAZY) :
    mono_dl_convert_flags c F1 B = mono_dl_convert_flags c F2 B := by
  simp only [mono_dl_convert_flags, hG, hL, hZ]

/-- Witness for C10 at testConsts: F1 = 20 and F2 = 4 agree on the three
portable masks and translate identically over baseline 0. -/
theorem mono_dl_convert_flags_mask_determined_witness :
    mono_dl_convert_flags testConsts 20 0 = mono_dl_convert_flags testConsts 4 0 :=
  mono_dl_convert_flags_mask_determined testConsts 20 4 0
    (by decide) (by decide) (by decide)
